import Mathlib

/-!
Shallow embedding of `src/python_example/main.py`, a 25-line script that
configures an OpenAI-compatible client against a local endpoint, issues one
`responses.create` call, and prints either the response's output text or an
error message.

The script's behaviour depends only on its environment: whether the client
constructor `OpenAI(...)` raises, and whether the network call raises or
returns a response.  We model that environment as a `World` and the whole
script as a function `run : World → RunResult` recording, in order, the
request bodies sent over the network, the arguments of the executed `print`
statements, and an uncaught exception if one escapes the script.
-/

namespace PyExample

/-- Client configuration, mirroring the `OpenAI(base_url=..., api_key=...)`
constructor call at the top of the script. -/
structure ClientConfig where
  base_url : String
  api_key : String
  deriving Repr, DecidableEq

/-- The hardcoded client configuration of the script. -/
def clientConfig : ClientConfig :=
  ⟨"http://localhost:8080/v1", "unused"⟩

/-- The request body of `client.responses.create(...)`: exactly the three
keyword arguments the script passes. -/
structure RequestBody where
  model : String
  instructions : String
  input : String
  deriving Repr, DecidableEq

/-- The hardcoded request body the script sends. -/
def requestBody : RequestBody :=
  ⟨"gemini-2.0-flash",
   "You are a coding assistant that talks like a pirate.",
   "How do I check if a Python object is an instance of a class?"⟩

/-- The response object, of which the script reads only `output_text`. -/
structure Response where
  output_text : String
  deriving Repr, DecidableEq

/-- Python exception classes, as far as the script's `except Exception`
clause distinguishes them: an instance of `Exception` (or a subclass), or a
`BaseException` that is not an `Exception` (e.g. `KeyboardInterrupt`,
`SystemExit`). -/
inductive ExcClass where
  | exception
  | baseOnly
  deriving Repr, DecidableEq

/-- A raised Python exception: its class (as seen by `except Exception`) and
its `str(e)` message, which the f-string `f"\nError: {e}"` interpolates. -/
structure Exc where
  cls : ExcClass
  msg : String
  deriving Repr, DecidableEq

/-- Outcome of the client constructor `OpenAI(...)`. -/
inductive ConstructResult where
  | ok
  | raises (e : Exc)
  deriving Repr, DecidableEq

/-- Outcome of the network call `client.responses.create(...)`. -/
inductive CallResult where
  | ok (r : Response)
  | raises (e : Exc)
  deriving Repr, DecidableEq

/-- The environment of one run: what the client constructor does and what
the (single) network call does. -/
structure World where
  construct : ConstructResult
  call : CallResult
  deriving Repr, DecidableEq

/-- One executed `print(...)` statement of the script, identified by which
source line it is, with its dynamic payload where it has one. -/
inductive OutLine where
  /-- `print("Sending request to cgpu serve...")` -/
  | announce
  /-- `print("\nResponse received:")` -/
  | header
  /-- `print("-" * 20)` -/
  | sep
  /-- `print(response.output_text)` -/
  | body (text : String)
  /-- `print(f"\nError: {e}")` -/
  | err (msg : String)
  /-- `print("\nMake sure 'cgpu serve' is running in another terminal.")` -/
  | hint
  deriving Repr, DecidableEq

/-- The separator string `"-" * 20`. -/
def dashSep : String := String.join (List.replicate 20 "-")

/-- The argument string each executed `print` statement receives. -/
def OutLine.render : OutLine → String
  | .announce => "Sending request to cgpu serve..."
  | .header => "\nResponse received:"
  | .sep => dashSep
  | .body text => text
  | .err msg => "\nError: " ++ msg
  | .hint => "\nMake sure 'cgpu serve' is running in another terminal."

/-- Console output of a list of executed `print` statements: Python's
`print(s)` writes `s` followed by a newline. -/
def renderStdout : List OutLine → String
  | [] => ""
  | l :: ls => l.render ++ "\n" ++ renderStdout ls

/-- Result of one run of the script: the request bodies sent over the
network in order, the executed `print` statements in order, and the
exception escaping the script, if any. -/
structure RunResult where
  calls : List RequestBody
  prints : List OutLine
  uncaught : Option Exc
  deriving Repr, DecidableEq

/-- One run of the script `main.py` in environment `w`:
* `client = OpenAI(base_url=..., api_key=...)` — outside the `try` block,
  so an exception here escapes immediately;
* inside `try`: print the announcement, issue the one network call with the
  hardcoded body; on a response, print header, separator, output text,
  separator; on an exception the `except Exception as e` clause prints the
  error line and the hint, while a `BaseException` that is not an
  `Exception` escapes. -/
def run (w : World) : RunResult :=
  match w.construct with
  | .raises e => ⟨[], [], some e⟩
  | .ok =>
    match w.call with
    | .ok r =>
        ⟨[requestBody],
         [.announce, .header, .sep, .body r.output_text, .sep],
         none⟩
    | .raises e =>
        match e.cls with
        | .exception =>
            ⟨[requestBody], [.announce, .err e.msg, .hint], none⟩
        | .baseOnly =>
            ⟨[requestBody], [.announce], some e⟩

/-- The console output of one run. -/
def stdoutOf (w : World) : String :=
  renderStdout (run w).prints

/-! ## Helper lemmas -/

/-- The request bodies a run sends: one (the hardcoded body) when client
construction succeeds, none when the constructor raises. -/
theorem run_calls_eq (w : World) :
    (run w).calls =
      match w.construct with
      | ConstructResult.ok => [requestBody]
      | ConstructResult.raises _ => [] := by
  obtain ⟨c, k⟩ := w
  cases c with
  | raises e => rfl
  | ok =>
    cases k with
    | ok r => rfl
    | raises e =>
      obtain ⟨cls, msg⟩ := e
      cases cls <;> rfl

/-- Splitting the error line's literal prefix. -/
theorem err_line_split (m : String) :
    "\nError: " ++ m = "\n" ++ ("Error: " ++ m) := by
  have h : "\nError: " = "\n" ++ "Error: " := by decide
  rw [h, String.append_assoc]

/-! ## Claims -/

/-- Claim C1, counterexample: an `Exception` raised during client
construction (which stands outside the `try` block) is not caught by the
handler — it propagates uncaught and no "Error: " message is printed, so
the claim as stated is false at this input. -/
theorem claim1_counterexample :
    (run ⟨ConstructResult.raises ⟨ExcClass.exception, "boom"⟩,
          CallResult.ok ⟨"unused response"⟩⟩).uncaught
        = some ⟨ExcClass.exception, "boom"⟩ ∧
    (run ⟨ConstructResult.raises ⟨ExcClass.exception, "boom"⟩,
          CallResult.ok ⟨"unused response"⟩⟩).prints = [] :=
  ⟨rfl, rfl⟩

/-- Claim C1 (amended): when client construction succeeds and the network
call raises an `Exception`, the top-level handler catches it, the run
prints the failure's message prefixed with "Error: " plus the remediation
hint, and the failure does not propagate out of the script. -/
theorem claim1_call_exception_caught (w : World) (e : Exc)
    (h1 : w.construct = ConstructResult.ok)
    (h2 : w.call = CallResult.raises e)
    (h3 : e.cls = ExcClass.exception) :
    (run w).uncaught = none ∧
    (run w).prints = [OutLine.announce, OutLine.err e.msg, OutLine.hint] := by
  obtain ⟨c, k⟩ := w
  obtain ⟨cls, msg⟩ := e
  simp only at h1 h2 h3
  subst h1; subst h2; subst h3
  exact ⟨rfl, rfl⟩

/-- Claim C1, witness. -/
theorem claim1_witness :
    (run ⟨ConstructResult.ok,
          CallResult.raises ⟨ExcClass.exception, "oops"⟩⟩).uncaught = none ∧
    (run ⟨ConstructResult.ok,
          CallResult.raises ⟨ExcClass.exception, "oops"⟩⟩).prints
      = [OutLine.announce, OutLine.err "oops", OutLine.hint] :=
  claim1_call_exception_caught
    ⟨ConstructResult.ok, CallResult.raises ⟨ExcClass.exception, "oops"⟩⟩
    ⟨ExcClass.exception, "oops"⟩ rfl rfl rfl

/-- Claim C2, counterexample: in the example scenario the console output is
not exactly the header line, separator, output text and closing separator —
the announcement line "Sending request to cgpu serve..." is printed first. -/
theorem claim2_counterexample :
    stdoutOf ⟨ConstructResult.ok,
        CallResult.ok ⟨"Arrr, ye scallywag, use isinstance() to check the type!"⟩⟩ ≠
      "\nResponse received:\n--------------------\nArrr, ye scallywag, use isinstance() to check the type!\n--------------------\n" := by
  decide

/-- Claim C2 (amended): in the example scenario the console output is
exactly the announcement line, the header line, a separator, the exact
output text, and a closing separator. -/
theorem claim2_exact_output :
    stdoutOf ⟨ConstructResult.ok,
        CallResult.ok ⟨"Arrr, ye scallywag, use isinstance() to check the type!"⟩⟩ =
      "Sending request to cgpu serve...\n\nResponse received:\n--------------------\nArrr, ye scallywag, use isinstance() to check the type!\n--------------------\n" := by
  decide

/-- Claim C10: the handler catches only `Exception` and its subclasses; a
`BaseException` raised by the call that is not an `Exception` (such as
`KeyboardInterrupt` or `SystemExit`) propagates uncaught out of the script,
with no error message printed. -/
theorem claim10_base_exception_escapes (w : World) (e : Exc)
    (h1 : w.construct = ConstructResult.ok)
    (h2 : w.call = CallResult.raises e)
    (h3 : e.cls = ExcClass.baseOnly) :
    (run w).uncaught = some e ∧
    (run w).prints = [OutLine.announce] := by
  obtain ⟨c, k⟩ := w
  obtain ⟨cls, msg⟩ := e
  simp only at h1 h2 h3
  subst h1; subst h2; subst h3
  exact ⟨rfl, rfl⟩

/-- Claim C10, witness. -/
theorem claim10_witness :
    (run ⟨ConstructResult.ok,
          CallResult.raises ⟨ExcClass.baseOnly, "interrupted"⟩⟩).uncaught
        = some ⟨ExcClass.baseOnly, "interrupted"⟩ ∧
    (run ⟨ConstructResult.ok,
          CallResult.raises ⟨ExcClass.baseOnly, "interrupted"⟩⟩).prints
      = [OutLine.announce] :=
  claim10_base_exception_escapes
    ⟨ConstructResult.ok, CallResult.raises ⟨ExcClass.baseOnly, "interrupted"⟩⟩
    ⟨ExcClass.baseOnly, "interrupted"⟩ rfl rfl rfl

/-- Claim C3: whenever the network call returns a response, the printed
output contains that exact output text with one separator line immediately
before it and one separator line immediately after it. -/
theorem claim3_output_between_separators (w : World) (r : Response)
    (h1 : w.construct = ConstructResult.ok)
    (h2 : w.call = CallResult.ok r) :
    ∃ pre post, stdoutOf w =
      pre ++ (dashSep ++ "\n" ++ r.output_text ++ "\n" ++ (dashSep ++ "\n")) ++ post := by
  obtain ⟨c, k⟩ := w
  obtain ⟨t⟩ := r
  simp only at h1 h2
  subst h1; subst h2
  refine ⟨"Sending request to cgpu serve..." ++ "\n" ++ ("\nResponse received:" ++ "\n"),
    "", ?_⟩
  simp [stdoutOf, run, renderStdout, OutLine.render, String.append_assoc]
  rw [← String.append_assoc]
  congr 1

/-- Claim C3, witness. -/
theorem claim3_witness :
    ∃ pre post,
      stdoutOf ⟨ConstructResult.ok, CallResult.ok ⟨"some text"⟩⟩ =
        pre ++ (dashSep ++ "\n" ++ "some text" ++ "\n" ++ (dashSep ++ "\n")) ++ post :=
  claim3_output_between_separators
    ⟨ConstructResult.ok, CallResult.ok ⟨"some text"⟩⟩ ⟨"some text"⟩ rfl rfl

/-- Claim C4: whenever the network call raises an `Exception` (e.g.
connection refused), the run prints a message beginning with "Error:"
followed by the remediation hint, and the failure does not escape as an
uncaught exception. -/
theorem claim4_failure_reported (w : World) (e : Exc)
    (h1 : w.construct = ConstructResult.ok)
    (h2 : w.call = CallResult.raises e)
    (h3 : e.cls = ExcClass.exception) :
    (run w).uncaught = none ∧
    ∃ pre, stdoutOf w =
      pre ++ ("Error: " ++ e.msg ++ "\n" ++
        ("\nMake sure 'cgpu serve' is running in another terminal." ++ "\n")) := by
  obtain ⟨c, k⟩ := w
  obtain ⟨cls, msg⟩ := e
  simp only at h1 h2 h3
  subst h1; subst h2; subst h3
  refine ⟨rfl, "Sending request to cgpu serve..." ++ "\n" ++ "\n", ?_⟩
  simp [stdoutOf, run, renderStdout, OutLine.render, err_line_split, String.append_assoc]
  rw [← String.append_assoc]
  congr 1

/-- Claim C4, witness. -/
theorem claim4_witness :
    (run ⟨ConstructResult.ok,
          CallResult.raises ⟨ExcClass.exception, "Connection refused"⟩⟩).uncaught
        = none ∧
    ∃ pre, stdoutOf ⟨ConstructResult.ok,
          CallResult.raises ⟨ExcClass.exception, "Connection refused"⟩⟩ =
      pre ++ ("Error: " ++ "Connection refused" ++ "\n" ++
        ("\nMake sure 'cgpu serve' is running in another terminal." ++ "\n")) :=
  claim4_failure_reported
    ⟨ConstructResult.ok, CallResult.raises ⟨ExcClass.exception, "Connection refused"⟩⟩
    ⟨ExcClass.exception, "Connection refused"⟩ rfl rfl rfl

/-- Claim C5: every request body sent to the server is exactly the
hardcoded body — model "gemini-2.0-flash", the pirate instructions string,
and the isinstance question as input — with no mutation. -/
theorem claim5_request_body_exact (w : World) (b : RequestBody)
    (h : b ∈ (run w).calls) :
    b.model = "gemini-2.0-flash" ∧
    b.instructions = "You are a coding assistant that talks like a pirate." ∧
    b.input = "How do I check if a Python object is an instance of a class?" := by
  rw [run_calls_eq] at h
  split at h
  · simp only [List.mem_singleton] at h
    subst h
    exact ⟨rfl, rfl, rfl⟩
  · simp at h

/-- Claim C5, witness. -/
theorem claim5_witness :
    requestBody.model = "gemini-2.0-flash" ∧
    requestBody.instructions = "You are a coding assistant that talks like a pirate." ∧
    requestBody.input = "How do I check if a Python object is an instance of a class?" :=
  claim5_request_body_exact ⟨ConstructResult.ok, CallResult.ok ⟨"r"⟩⟩ requestBody
    (by simp [run])

/-- Claim C6: whenever the network call raises, none of the success-path
print statements executes — the "Response received:" header, the
separators, and any response text are absent from the printed lines. -/
theorem claim6_no_success_output (w : World) (e : Exc)
    (h1 : w.construct = ConstructResult.ok)
    (h2 : w.call = CallResult.raises e) :
    OutLine.header ∉ (run w).prints ∧
    OutLine.sep ∉ (run w).prints ∧
    ∀ t, OutLine.body t ∉ (run w).prints := by
  obtain ⟨c, k⟩ := w
  obtain ⟨cls, msg⟩ := e
  simp only at h1 h2
  subst h1; subst h2
  cases cls <;> simp [run]

/-- Claim C6, witness. -/
theorem claim6_witness :
    OutLine.header ∉
      (run ⟨ConstructResult.ok,
            CallResult.raises ⟨ExcClass.exception, "nope"⟩⟩).prints :=
  (claim6_no_success_output
    ⟨ConstructResult.ok, CallResult.raises ⟨ExcClass.exception, "nope"⟩⟩
    ⟨ExcClass.exception, "nope"⟩ rfl rfl).1

/-- Claim C7: two runs whose environments behave identically (the client
constructor and the server do the same thing both times) produce identical
results — same calls, same printed lines, same console output; the script
is deterministic and carries no hidden state between runs. -/
theorem claim7_deterministic (w₁ w₂ : World)
    (hc : w₁.construct = w₂.construct)
    (hk : w₁.call = w₂.call) :
    run w₁ = run w₂ ∧ stdoutOf w₁ = stdoutOf w₂ := by
  obtain ⟨c₁, k₁⟩ := w₁
  obtain ⟨c₂, k₂⟩ := w₂
  simp only at hc hk
  subst hc; subst hk
  exact ⟨rfl, rfl⟩

/-- Claim C7, witness. -/
theorem claim7_witness :
    run ⟨ConstructResult.ok, CallResult.ok ⟨"same reply"⟩⟩ =
        run ⟨ConstructResult.ok, CallResult.ok ⟨"same reply"⟩⟩ ∧
    stdoutOf ⟨ConstructResult.ok, CallResult.ok ⟨"same reply"⟩⟩ =
        stdoutOf ⟨ConstructResult.ok, CallResult.ok ⟨"same reply"⟩⟩ :=
  claim7_deterministic
    ⟨ConstructResult.ok, CallResult.ok ⟨"same reply"⟩⟩
    ⟨ConstructResult.ok, CallResult.ok ⟨"same reply"⟩⟩ rfl rfl

/-- Claim C8, counterexample: when the client constructor raises, the `try`
block is never entered and no network call is issued, so the call is not
issued "exactly once" in every run. -/
theorem claim8_counterexample :
    (run ⟨ConstructResult.raises ⟨ExcClass.exception, "init failed"⟩,
          CallResult.ok ⟨"never sent"⟩⟩).calls.length ≠ 1 := by
  decide

/-- Claim C8 (amended): the network call is issued at most once in every
run — never retried — and exactly once whenever client construction
succeeds, whether the call succeeds or fails. -/
theorem claim8_at_most_once (w : World) :
    (run w).calls.length ≤ 1 ∧
    (w.construct = ConstructResult.ok → (run w).calls.length = 1) := by
  rw [run_calls_eq]
  obtain ⟨c, k⟩ := w
  cases c with
  | ok => exact ⟨le_refl 1, fun _ => rfl⟩
  | raises e => exact ⟨Nat.zero_le 1, fun h => by simp at h⟩

/-- Claim C8, witness. -/
theorem claim8_witness :
    (run ⟨ConstructResult.ok,
          CallResult.raises ⟨ExcClass.exception, "refused"⟩⟩).calls.length = 1 :=
  (claim8_at_most_once
    ⟨ConstructResult.ok, CallResult.raises ⟨ExcClass.exception, "refused"⟩⟩).2 rfl

/-- Claim C9: whenever client construction succeeds, the announcement line
"Sending request to cgpu serve..." is the first thing printed, on the
success path and on both failure paths alike. -/
theorem claim9_announce_first (w : World)
    (h : w.construct = ConstructResult.ok) :
    (run w).prints.head? = some OutLine.announce := by
  obtain ⟨c, k⟩ := w
  simp only at h
  subst h
  cases k with
  | ok r => rfl
  | raises e =>
    obtain ⟨cls, msg⟩ := e
    cases cls <;> rfl

/-- Claim C9, witness. -/
theorem claim9_witness :
    (run ⟨ConstructResult.ok, CallResult.ok ⟨"hi"⟩⟩).prints.head?
      = some OutLine.announce :=
  claim9_announce_first ⟨ConstructResult.ok, CallResult.ok ⟨"hi"⟩⟩ rfl

end PyExample

